import Mathlib

/-!
Verification of the mini-webui streaming chat client.

The definitions below are a shallow embedding of the TypeScript/Svelte
source: the guest send handler in `src/routes/(app)/+page.svelte`, the
streaming clients `streamMessage` / `guestChatStream` and `guestChat` in
`src/lib/apis/chats`, the two message-input components, and the auth
stores in `src/lib/stores/index.ts`.
-/

/-! ## JavaScript string and array primitives -/

/-- Character-list test that `pat` is an initial segment, used to model
`String.prototype.startsWith`. -/
def startsWithChars : List Char → List Char → Bool
  | [], _ => true
  | _ :: _, [] => false
  | p :: ps, c :: cs => p = c && startsWithChars ps cs

/-- Models `line.startsWith(pat)`. -/
def strStartsWith (s pat : String) : Bool :=
  startsWithChars pat.toList s.toList

/-- Models `s.slice(n)` on strings (drop the first `n` UTF-16-ish units;
chunks in this codebase are plain text, so code points suffice). -/
def strDrop (s : String) (n : Nat) : String :=
  String.mk (s.toList.drop n)

/-- Whitespace characters removed by `String.prototype.trim` (the ASCII
subset, which covers every input this client produces). -/
def jsIsWs (c : Char) : Bool :=
  c = ' ' || c = '\t' || c = '\n' || c = '\r' || c = Char.ofNat 11 || c = Char.ofNat 12

/-- Models `s.trim()`. -/
def strTrim (s : String) : String :=
  String.mk (((s.toList.dropWhile jsIsWs).reverse.dropWhile jsIsWs).reverse)

/-- Clamps a possibly negative `Array.prototype.slice` bound to an index,
per the ECMAScript specification. -/
def jsIndex (len : Nat) (i : Int) : Nat :=
  if i < 0 then (max ((len : Int) + i) 0).toNat else min i.toNat len

/-- Models `l.slice(start, stop)` on arrays. -/
def jsSlice {α : Type} (l : List α) (start stop : Int) : List α :=
  (l.take (jsIndex l.length stop)).drop (jsIndex l.length start)

/-- Models `l.slice(start)` on arrays. -/
def jsSliceFrom {α : Type} (l : List α) (start : Int) : List α :=
  jsSlice l start (l.length : Int)

/-! ## Transcript data model

`ChatMessage` embeds the message objects held in the page's `messages`
array: `role`, `content`, optional `timestamp`, the locally assigned
`cid` correlation token, and the `__placeholder` marker (absent on JS
objects that never set it, which is falsy, hence `false` here). -/

structure ChatMessage where
  role : String
  content : String
  timestamp : Option Nat
  cid : Option String
  placeholder : Bool
deriving DecidableEq, Repr

/-- Shape of messages received from the backend (`GuestChatResponse.messages`
and the `type:'messages'` snapshot payload): role/content pairs with an
optional timestamp, never carrying a `cid` or `__placeholder` marker. -/
structure ServerMessage where
  role : String
  content : String
  timestamp : Option Nat
deriving DecidableEq, Repr

/-- A server message entering the local `messages` array: the absent
`__placeholder` and `cid` fields read as falsy/undefined. -/
def injectServer (m : ServerMessage) : ChatMessage :=
  ⟨m.role, m.content, m.timestamp, none, false⟩

/-- Component state of `+page.svelte` relevant to a guest send:
`messages`, `pendingAssistantIndex`, `ignoreFinalGuestSse`, and the
`cidCounter` behind `nextCid`. -/
structure PageState where
  messages : List ChatMessage
  pendingAssistantIndex : Option Nat
  ignoreFinalGuestSse : Bool
  cidCounter : Nat
deriving DecidableEq, Repr

/-- Writes `messages[i].content = c` (the chunk callback's in-place
update; indices in the handler are always in range). -/
def setContent : List ChatMessage → Nat → String → List ChatMessage
  | [], _, _ => []
  | m :: ms, 0, c => { m with content := c } :: ms
  | m :: ms, Nat.succ i, c => m :: setContent ms i c

/-! ## The guest send handler (`handleGuestSent`) -/

/-- Events delivered to the two callbacks of `guestChatStream`: a text
chunk, or a control snapshot (`onMessages`). -/
inductive GuestEvent where
  | chunk (payload : String)
  | control (msgs : List ServerMessage)
deriving Repr

/-- Lines 145-153 of `+page.svelte`: append the optimistic user message
(with `nextCid`), push the `__placeholder` assistant entry, record its
index, reset `ignoreFinalGuestSse`. -/
def startStreamingSend (s : PageState) (content : String) (now : Nat) : PageState :=
  let user : ChatMessage := ⟨"user", content, some now, some (Nat.repr (s.cidCounter + 1)), false⟩
  let ph : ChatMessage := ⟨"assistant", "", none, some (Nat.repr (s.cidCounter + 2)), true⟩
  let ms := s.messages ++ [user, ph]
  { messages := ms
    pendingAssistantIndex := some (ms.length - 1)
    ignoreFinalGuestSse := false
    cidCounter := s.cidCounter + 2 }

/-- The chunk callback (lines 164-170): extend the accumulator and write
the whole accumulator into the entry at `pendingAssistantIndex`. -/
def onChunkCb (st : String × PageState) (c : String) : String × PageState :=
  let acc := st.1 ++ c
  match st.2.pendingAssistantIndex with
  | some i => (acc, { st.2 with messages := setContent st.2.messages i acc })
  | none => (acc, st.2)

/-- The tail-duplicate test of lines 187-192: the transcript has at least
two entries and the last two agree on role and content. -/
def tailDuplicate (ms : List ChatMessage) : Bool :=
  if 2 ≤ ms.length then
    match ms.get? (ms.length - 1), ms.get? (ms.length - 2) with
    | some a, some b => a.role == b.role && a.content == b.content
    | _, _ => false
  else false

/-- Lines 186-193: drop the very last entry when the tail is a duplicate
pair (`messages.slice(0, -1)`). -/
def dedupTail (ms : List ChatMessage) : List ChatMessage :=
  if tailDuplicate ms then jsSlice ms 0 (-1) else ms

/-- The guard of line 179: `pendingAssistantIndex != null &&
messages[pendingAssistantIndex]?.__placeholder`. -/
def pendingPlaceholderPresent (s : PageState) : Bool :=
  match s.pendingAssistantIndex with
  | some i =>
    match s.messages.get? i with
    | some m => m.placeholder
    | none => false
  | none => false

/-- Lines 178-185: the transcript right after the replacement assignment —
either `messages.slice(0, -2)` followed by `updatedMessages.slice(-2)`,
or the snapshot verbatim when no live placeholder remains. -/
def reconcileCandidate (s : PageState) (updated : List ServerMessage) : List ChatMessage :=
  if pendingPlaceholderPresent s then
    jsSlice s.messages 0 (-2) ++ (jsSliceFrom updated (-2)).map injectServer
  else updated.map injectServer

/-- The `onMessages` callback (lines 171-196): early-out when
`ignoreFinalGuestSse` is set, otherwise splice, dedup the tail, and clear
the pending index. -/
def onMessagesCb (s : PageState) (updated : List ServerMessage) : PageState :=
  if s.ignoreFinalGuestSse then
    { s with pendingAssistantIndex := none, ignoreFinalGuestSse := false }
  else
    { s with messages := dedupTail (reconcileCandidate s updated)
             pendingAssistantIndex := none
             ignoreFinalGuestSse := false }

/-- Dispatch one decoded stream event to the matching callback. -/
def applyGuestEvent (st : String × PageState) : GuestEvent → String × PageState
  | GuestEvent.chunk c => onChunkCb st c
  | GuestEvent.control ms => (st.1, onMessagesCb st.2 ms)

/-- Deliver a whole sequence of stream events in order. -/
def runGuestEvents (st : String × PageState) (evs : List GuestEvent) : String × PageState :=
  evs.foldl applyGuestEvent st

/-- Result of the non-streaming `guestChat` call: the answer text plus
the full updated transcript. -/
structure GuestChatResponse where
  response : String
  messages : List ServerMessage
deriving Repr

/-- Lines 198-211, after `guestChatStream` threw and `guestChat`
succeeded: the response transcript replaces `messages` wholesale, the
pending index is cleared, and the late-SSE guard is set. -/
def fallbackApply (s : PageState) (resp : GuestChatResponse) : PageState :=
  { s with messages := resp.messages.map injectServer
           pendingAssistantIndex := none
           ignoreFinalGuestSse := true }

/-- Outcome of the `guestChatStream` call: the events delivered before it
either returned normally or threw. -/
inductive StreamOutcome where
  | ok (evs : List GuestEvent)
  | fail (evs : List GuestEvent)
deriving Repr

/-- Network requests the handler can open. -/
inductive ApiCall where
  | streamReq
  | sendOnceReq
deriving DecidableEq, Repr

/-- The streaming branch of `handleGuestSent` (lines 143-211). An
`Except.error` result is the state left behind when the fallback request
itself rejects: nothing in the handler catches that rejection, so none of
the post-fallback assignments run. -/
def handleGuestSentStreaming (s : PageState) (content : String) (now : Nat)
    (out : StreamOutcome) (fb : Except String GuestChatResponse) :
    Except PageState PageState × List ApiCall :=
  let s0 := startStreamingSend s content now
  match out with
  | StreamOutcome.ok evs =>
    (Except.ok (runGuestEvents ("", s0) evs).2, [ApiCall.streamReq])
  | StreamOutcome.fail evs =>
    let s1 := (runGuestEvents ("", s0) evs).2
    match fb with
    | Except.ok resp => (Except.ok (fallbackApply s1 resp), [ApiCall.streamReq, ApiCall.sendOnceReq])
    | Except.error _ => (Except.error s1, [ApiCall.streamReq, ApiCall.sendOnceReq])

/-- The non-streaming branch (lines 212-227): append the optimistic user
message, call `guestChat`, and replace `messages` with its transcript. -/
def handleGuestSentNonStreaming (s : PageState) (content : String) (now : Nat)
    (fb : Except String GuestChatResponse) :
    Except PageState PageState × List ApiCall :=
  let user : ChatMessage := ⟨"user", content, some now, some (Nat.repr (s.cidCounter + 1)), false⟩
  let s0 : PageState :=
    { s with messages := s.messages ++ [user], cidCounter := s.cidCounter + 1 }
  match fb with
  | Except.ok resp =>
    (Except.ok { s0 with messages := resp.messages.map injectServer }, [ApiCall.sendOnceReq])
  | Except.error _ => (Except.error s0, [ApiCall.sendOnceReq])

/-- `handleGuestSent` (lines 139-228): the falsy-content guard, then the
`streaming && !useRag` branch split. -/
def handleGuestSent (s : PageState) (streaming useRag : Bool) (content : String)
    (now : Nat) (out : StreamOutcome) (fb : Except String GuestChatResponse) :
    Except PageState PageState × List ApiCall :=
  if content = "" then (Except.ok s, [])
  else if streaming && !useRag then handleGuestSentStreaming s content now out fb
  else handleGuestSentNonStreaming s content now fb

/-- The reactive statement `$: if (useRag) streaming = false;`
(lines 26-28). -/
def ragNormalize (streaming useRag : Bool) : Bool :=
  if useRag then false else streaming

/-! ## A model of `JSON.parse`

`guestChatStream` classifies an SSE payload by attempting `JSON.parse`
and inspecting `parsed.type`.  The parser below follows the JSON grammar
(RFC 8259): values are null, booleans, numbers, strings, arrays, and
objects; a parse fails on trailing garbage.  Numbers keep their lexeme,
since the client never inspects numeric values. -/

inductive Json where
  | null
  | bool (b : Bool)
  | num (lexeme : String)
  | str (s : String)
  | arr (elems : List Json)
  | obj (fields : List (String × Json))
deriving Repr, Inhabited

/-- JSON insignificant whitespace. -/
def jsonWs (c : Char) : Bool :=
  c = ' ' || c = '\t' || c = '\n' || c = '\r'

/-- Skip insignificant whitespace. -/
def skipWs : List Char → List Char
  | [] => []
  | c :: cs => if jsonWs c then skipWs cs else c :: cs

/-- Value of one hexadecimal digit. -/
def hexVal (c : Char) : Option Nat :=
  if '0' ≤ c ∧ c ≤ '9' then some (c.toNat - '0'.toNat)
  else if 'a' ≤ c ∧ c ≤ 'f' then some (c.toNat - 'a'.toNat + 10)
  else if 'A' ≤ c ∧ c ≤ 'F' then some (c.toNat - 'A'.toNat + 10)
  else none

/-- Body of a JSON string, after the opening quote: returns the decoded
characters and the input past the closing quote. -/
def pStringBody : List Char → Option (List Char × List Char)
  | [] => none
  | c :: cs =>
    if c = '"' then some ([], cs)
    else if c = '\\' then
      match cs with
      | [] => none
      | e :: cs2 =>
        if e = '"' then (pStringBody cs2).map (fun p => ('"' :: p.1, p.2))
        else if e = '\\' then (pStringBody cs2).map (fun p => ('\\' :: p.1, p.2))
        else if e = '/' then (pStringBody cs2).map (fun p => ('/' :: p.1, p.2))
        else if e = 'b' then (pStringBody cs2).map (fun p => (Char.ofNat 8 :: p.1, p.2))
        else if e = 'f' then (pStringBody cs2).map (fun p => (Char.ofNat 12 :: p.1, p.2))
        else if e = 'n' then (pStringBody cs2).map (fun p => ('\n' :: p.1, p.2))
        else if e = 'r' then (pStringBody cs2).map (fun p => ('\r' :: p.1, p.2))
        else if e = 't' then (pStringBody cs2).map (fun p => ('\t' :: p.1, p.2))
        else if e = 'u' then
          match cs2 with
          | a :: b :: c2 :: d :: cs3 =>
            match hexVal a, hexVal b, hexVal c2, hexVal d with
            | some ha, some hb, some hc, some hd =>
              (pStringBody cs3).map
                (fun p => (Char.ofNat (((ha * 16 + hb) * 16 + hc) * 16 + hd) :: p.1, p.2))
            | _, _, _, _ => none
          | _ => none
        else none
    else if c.toNat < 32 then none
    else (pStringBody cs).map (fun p => (c :: p.1, p.2))

/-- Longest run of decimal digits. -/
def takeDigits : List Char → List Char × List Char
  | [] => ([], [])
  | c :: cs =>
    if c.isDigit then
      let p := takeDigits cs
      (c :: p.1, p.2)
    else ([], c :: cs)

/-- JSON number grammar: optional minus, integer part without leading
zeros, optional fraction, optional exponent.  Returns the lexeme. -/
def pNumber (cs : List Char) : Option (String × List Char) :=
  let (sgn, cs1) :=
    match cs with
    | '-' :: r => (['-'], r)
    | _ => (([] : List Char), cs)
  match cs1 with
  | [] => none
  | c :: r =>
    if c = '0' ∨ (c.isDigit ∧ c ≠ '0') then
      let (intPart, rest0) :=
        if c = '0' then ([c], r)
        else
          let p := takeDigits r
          (c :: p.1, p.2)
      let (fracPart, rest1) :=
        match rest0 with
        | '.' :: r2 =>
          let p := takeDigits r2
          if p.1.isEmpty then ([], '.' :: r2) else ('.' :: p.1, p.2)
        | _ => ([], rest0)
      let fracOk : Bool :=
        match rest0 with
        | '.' :: r2 => !(takeDigits r2).1.isEmpty
        | _ => true
      let (expPart, rest2, expOk) :=
        match rest1 with
        | e :: r3 =>
          if e = 'e' ∨ e = 'E' then
            let (esgn, r4) :=
              match r3 with
              | '+' :: r5 => (['+'], r5)
              | '-' :: r5 => (['-'], r5)
              | _ => (([] : List Char), r3)
            let p := takeDigits r4
            if p.1.isEmpty then ([], rest1, false)
            else (e :: (esgn ++ p.1), p.2, true)
          else ([], rest1, true)
        | [] => ([], rest1, true)
      if fracOk && expOk then
        some (String.mk (sgn ++ intPart ++ fracPart ++ expPart), rest2)
      else none
    else none

/-- Literal keyword match. -/
def stripChars : List Char → List Char → Option (List Char)
  | [], cs => some cs
  | p :: ps, c :: cs => if p = c then stripChars ps cs else none
  | _ :: _, [] => none

mutual

/-- Parse one JSON value; the fuel bounds recursion depth and is sized
well past any derivation for the given input. -/
def pVal : Nat → List Char → Option (Json × List Char)
  | 0, _ => none
  | Nat.succ fu, cs =>
    match skipWs cs with
    | [] => none
    | c :: r =>
      if c = '"' then (pStringBody r).map (fun p => (Json.str (String.mk p.1), p.2))
      else if c = '[' then
        match skipWs r with
        | ']' :: r2 => some (Json.arr [], r2)
        | r2 => (pArrItems fu r2 []).map (fun p => (Json.arr p.1, p.2))
      else if c = '{' then
        match skipWs r with
        | '}' :: r2 => some (Json.obj [], r2)
        | r2 => (pObjItems fu r2 []).map (fun p => (Json.obj p.1, p.2))
      else if c = 't' then (stripChars ['r', 'u', 'e'] r).map (fun r2 => (Json.bool true, r2))
      else if c = 'f' then (stripChars ['a', 'l', 's', 'e'] r).map (fun r2 => (Json.bool false, r2))
      else if c = 'n' then (stripChars ['u', 'l', 'l'] r).map (fun r2 => (Json.null, r2))
      else (pNumber (c :: r)).map (fun p => (Json.num p.1, p.2))

/-- Comma-separated array items, positioned at the start of an item. -/
def pArrItems : Nat → List Char → List Json → Option (List Json × List Char)
  | 0, _, _ => none
  | Nat.succ fu, cs, acc =>
    match pVal fu cs with
    | none => none
    | some (v, rest) =>
      match skipWs rest with
      | ',' :: r2 => pArrItems fu r2 (acc ++ [v])
      | ']' :: r2 => some (acc ++ [v], r2)
      | _ => none

/-- Comma-separated object members, positioned at the start of a key. -/
def pObjItems : Nat → List Char → List (String × Json) →
    Option (List (String × Json) × List Char)
  | 0, _, _ => none
  | Nat.succ fu, cs, acc =>
    match skipWs cs with
    | '"' :: r =>
      match pStringBody r with
      | none => none
      | some (key, rest) =>
        match skipWs rest with
        | ':' :: r2 =>
          match pVal fu r2 with
          | none => none
          | some (v, rest2) =>
            match skipWs rest2 with
            | ',' :: r3 => pObjItems fu r3 (acc ++ [(String.mk key, v)])
            | '}' :: r3 => some (acc ++ [(String.mk key, v)], r3)
            | _ => none
        | _ => none
    | _ => none

end

/-- Models `JSON.parse(s)`: parse one value, then require only trailing
whitespace. -/
def parseJson (s : String) : Option Json :=
  match pVal (8 * (s.toList.length + 1)) s.toList with
  | some (v, rest) => if (skipWs rest).isEmpty then some v else none
  | none => none

/-- Duplicate object keys in `JSON.parse`: the last occurrence wins. -/
def jsLookupField (fields : List (String × Json)) (k : String) : Option Json :=
  (fields.filter (fun p => p.1 = k)).getLast?.map (fun p => p.2)

/-- Models the property access `v.k` on a parse result: `none` is a
thrown TypeError (access on null), `some none` is `undefined`, and
`some (some w)` is the property value. -/
def jsGetProp : Json → String → Option (Option Json)
  | Json.null, _ => none
  | Json.obj fs, k => some (jsLookupField fs k)
  | _, _ => some none

/-! ## The SSE line loops -/

/-- Event emitted per classified line of the guest stream: `control` is
an `onMessages(parsed.data)` invocation (carrying the raw `data`
property, `none` when it is undefined), `chunk` an `onChunk(data)`. -/
inductive SseEvent where
  | control (data : Option Json)
  | chunk (payload : String)
deriving Repr

/-- Lines 255-266 of the chats API, classifying one non-terminal payload
of `guestChatStream`: try `JSON.parse`; on success test
`parsed.type === 'messages'` (a throwing property access lands in the
catch and degrades to a chunk); a successful parse without the
discriminator emits nothing. -/
def guestClassifyData (data : String) : Option SseEvent :=
  match parseJson data with
  | none => some (SseEvent.chunk data)
  | some parsed =>
    match jsGetProp parsed "type" with
    | none => some (SseEvent.chunk data)
    | some tv =>
      match tv with
      | some (Json.str s) =>
        if s = "messages" then
          match jsGetProp parsed "data" with
          | some dv => some (SseEvent.control dv)
          | none => some (SseEvent.chunk data)
        else none
      | _ => none

/-- The complete-line loop of `guestChatStream` (lines 251-267): skip
lines without the `data: ` marker, stop at `[DONE]`, classify the rest. -/
def guestProcessLines : List String → List SseEvent
  | [] => []
  | line :: rest =>
    if strStartsWith line "data: " then
      let data := strDrop line 6
      if data = "[DONE]" then []
      else
        match guestClassifyData data with
        | some e => e :: guestProcessLines rest
        | none => guestProcessLines rest
    else guestProcessLines rest

/-- The complete-line loop of `streamMessage` (lines 172-178): every
non-terminal payload is handed to `onChunk` verbatim. -/
def streamProcessLines : List String → List String
  | [] => []
  | line :: rest =>
    if strStartsWith line "data: " then
      let data := strDrop line 6
      if data = "[DONE]" then []
      else data :: streamProcessLines rest
    else streamProcessLines rest

/-! ## Streaming request construction -/

/-- The observable parts of a `fetch` call. -/
structure HttpRequest where
  method : String
  headers : List (String × String)
  cache : String
  mode : String
deriving DecidableEq, Repr

/-- The request opened by `streamMessage` (lines 148-158): `Accept`
always, `Authorization: Bearer <token>` exactly when `getToken()` is
truthy, `cache: 'no-store'`. -/
def streamMessageRequest (token : Option String) : HttpRequest :=
  let hdrs := [("Accept", "text/event-stream")]
  let hdrs :=
    match token with
    | some t => if t ≠ "" then hdrs ++ [("Authorization", "Bearer " ++ t)] else hdrs
    | none => hdrs
  ⟨"GET", hdrs, "no-store", "cors"⟩

/-- The request opened by `guestChatStream` (lines 231-236): no
authorization header at all. -/
def guestChatStreamRequest : HttpRequest :=
  ⟨"GET", [("Accept", "text/event-stream")], "no-store", "cors"⟩

/-- Whether a request carries any `Authorization` header. -/
def hasAuthHeader (r : HttpRequest) : Bool :=
  r.headers.any (fun p => p.1 = "Authorization")

/-! ## The message input components -/

/-- Local state of `MessageInput` / `GuestMessageInput`. -/
structure InputState where
  content : String
  sending : Bool
deriving DecidableEq, Repr

/-- `handleSend` of `GuestMessageInput` (lines 31-47): the
`!content.trim() || sending` guard, then clear the box and dispatch the
`sent` event carrying the typed text. -/
def guestInputHandleSend (st : InputState) : InputState × List String :=
  if strTrim st.content = "" || st.sending then (st, [])
  else ({ content := "", sending := false }, [st.content])

/-- `handleSend` of `MessageInput` (lines 113-156), with `resolveChat`
folded into the resolved `targetChatId`: the same guard; a missing chat
id throws into the catch, which restores the typed text; otherwise the
`streaming && !useRag` split decides between `streamMessage` and
`sendMessage`. -/
def messageInputHandleSend (st : InputState) (targetChatId : Option String)
    (streaming useRag : Bool) : InputState × List ApiCall :=
  if strTrim st.content = "" || st.sending then (st, [])
  else
    match targetChatId with
    | none => ({ content := st.content, sending := false }, [])
    | some _ =>
      if streaming && !useRag then (⟨"", false⟩, [ApiCall.streamReq])
      else (⟨"", false⟩, [ApiCall.sendOnceReq])

/-! ## The auth stores (`src/lib/stores/index.ts`) -/

/-- The `User` interface: every field optional. -/
structure StoreUser where
  id : Option String := none
  name : Option String := none
  email : Option String := none
  role : Option String := none
  profile_image_url : Option String := none
deriving DecidableEq, Repr

/-- The canned `guestUser` instance. -/
def guestUser : StoreUser :=
  { id := some "guest", name := some "Guest", email := some "guest@example.com"
    role := some "guest" }

/-- The four writable stores. -/
structure Stores where
  isAuthenticated : Bool
  user : Option StoreUser
  isGuest : Bool
  token : Option String
deriving DecidableEq, Repr

/-- Initial store values (`writable(false)`, `writable(null)`, ...). -/
def initialStores : Stores :=
  ⟨false, none, false, none⟩

/-- `setGuestMode` (lines 37-42). -/
def setGuestMode (s : Stores) : Stores :=
  { s with isAuthenticated := true, isGuest := true, user := some guestUser, token := none }

/-- `clearAuth` (lines 44-50), minus the localStorage side effect. -/
def clearAuth (_s : Stores) : Stores :=
  ⟨false, none, false, none⟩

/-- The successful-login path of the app layout (`src/unnamed/part_000`,
onMount): `user.set(u); isAuthenticated.set(true)` — `isGuest` is left
untouched. -/
def loginSuccess (u : StoreUser) (s : Stores) : Stores :=
  { s with user := some u, isAuthenticated := true }

/-! ## Helper lemmas -/

lemma jsIndex_zero (len : Nat) : jsIndex len 0 = 0 := by
  simp [jsIndex]

lemma jsIndex_neg2 (len : Nat) : jsIndex len (-2) = len - 2 := by
  unfold jsIndex
  rw [if_pos (by norm_num)]
  omega

lemma jsIndex_neg1 (len : Nat) : jsIndex len (-1) = len - 1 := by
  unfold jsIndex
  rw [if_pos (by norm_num)]
  omega

lemma jsIndex_len (len : Nat) : jsIndex len (len : Int) = len := by
  unfold jsIndex
  rw [if_neg (by omega)]
  simp

lemma jsSlice_zero_neg2 {α : Type} (l : List α) :
    jsSlice l 0 (-2) = l.take (l.length - 2) := by
  unfold jsSlice
  rw [jsIndex_neg2, jsIndex_zero, List.drop_zero]

lemma jsSlice_zero_neg1 {α : Type} (l : List α) :
    jsSlice l 0 (-1) = l.dropLast := by
  unfold jsSlice
  rw [jsIndex_neg1, jsIndex_zero, List.drop_zero, List.dropLast_eq_take]

lemma jsSliceFrom_neg2 {α : Type} (l : List α) :
    jsSliceFrom l (-2) = l.drop (l.length - 2) := by
  unfold jsSliceFrom jsSlice
  rw [jsIndex_neg2, jsIndex_len, List.take_length]

lemma get?_append_add {α : Type} (l l' : List α) (n : Nat) :
    (l ++ l').get? (l.length + n) = l'.get? n := by
  rw [List.get?_append_right (Nat.le_add_right _ _), Nat.add_sub_cancel_left]

lemma setContent_get?_self (ms : List ChatMessage) (i : Nat) (c : String) (m : ChatMessage)
    (h : ms.get? i = some m) :
    (setContent ms i c).get? i = some { m with content := c } := by
  induction ms generalizing i with
  | nil => simp [List.get?] at h
  | cons x xs ih =>
    cases i with
    | zero =>
      simp only [List.get?] at h
      cases h
      rfl
    | succ j =>
      simp only [List.get?] at h
      simpa [setContent, List.get?] using ih j h

lemma setContent_get?_ne (ms : List ChatMessage) (i j : Nat) (c : String) (h : j ≠ i) :
    (setContent ms i c).get? j = ms.get? j := by
  induction ms generalizing i j with
  | nil => rfl
  | cons x xs ih =>
    cases i with
    | zero =>
      cases j with
      | zero => exact absurd rfl h
      | succ k => rfl
    | succ i' =>
      cases j with
      | zero => rfl
      | succ k => simpa [setContent, List.get?] using ih i' k (fun e => h (by rw [e]))

lemma string_join_nil : String.join ([] : List String) = "" := rfl

lemma string_join_cons (c : String) (tl : List String) :
    String.join (c :: tl) = c ++ String.join tl := by
  apply String.ext
  rw [String.data_join, String.data_append, String.data_join, List.map_cons, List.flatten_cons]

lemma content_update_id (m : ChatMessage) : { m with content := m.content } = m := by
  cases m
  rfl

lemma runChunks_spec (cs : List String) (a : String) (st : PageState) (i : Nat) (m : ChatMessage)
    (hp : st.pendingAssistantIndex = some i) (hm : st.messages.get? i = some m)
    (hc : m.content = a) :
    (runGuestEvents (a, st) (cs.map GuestEvent.chunk)).1 = a ++ String.join cs ∧
    (runGuestEvents (a, st) (cs.map GuestEvent.chunk)).2.pendingAssistantIndex = some i ∧
    (runGuestEvents (a, st) (cs.map GuestEvent.chunk)).2.messages.get? i
      = some { m with content := a ++ String.join cs } ∧
    (∀ j, j ≠ i →
      (runGuestEvents (a, st) (cs.map GuestEvent.chunk)).2.messages.get? j
        = st.messages.get? j) ∧
    (runGuestEvents (a, st) (cs.map GuestEvent.chunk)).2.ignoreFinalGuestSse
      = st.ignoreFinalGuestSse ∧
    (runGuestEvents (a, st) (cs.map GuestEvent.chunk)).2.cidCounter = st.cidCounter := by
  induction cs generalizing a st m with
  | nil =>
    have ha : a ++ String.join [] = a := by rw [string_join_nil, String.append_empty]
    refine ⟨by simp [runGuestEvents, ha], hp, ?_, fun j _ => rfl, rfl, rfl⟩
    rw [show runGuestEvents (a, st) (List.map GuestEvent.chunk []) = (a, st) from rfl, hm, ha,
      ← hc, content_update_id]
  | cons c tl ih =>
    have hstep : runGuestEvents (a, st) (List.map GuestEvent.chunk (c :: tl))
        = runGuestEvents (a ++ c, { st with messages := setContent st.messages i (a ++ c) })
            (List.map GuestEvent.chunk tl) := by
      simp [runGuestEvents, applyGuestEvent, onChunkCb, hp]
    have hm' : ({ st with messages := setContent st.messages i (a ++ c) } : PageState).messages.get? i
        = some { m with content := a ++ c } := setContent_get?_self st.messages i (a ++ c) m hm
    obtain ⟨h1, h2, h3, h4, h5, h6⟩ :=
      ih (a ++ c) { st with messages := setContent st.messages i (a ++ c) }
        { m with content := a ++ c } hp hm' rfl
    have hacc : (a ++ c) ++ String.join tl = a ++ String.join (c :: tl) := by
      rw [string_join_cons, String.append_assoc]
    refine ⟨?_, by rw [hstep]; exact h2, ?_, ?_, by rw [hstep]; exact h5, by rw [hstep]; exact h6⟩
    · rw [hstep, h1, hacc]
    · rw [hstep, h3, hacc]
    · intro j hj
      rw [hstep, h4 j hj, setContent_get?_ne st.messages i j (a ++ c) hj]

/-! ## Claim theorems -/

/-- Claim C1: for every sequence of N text-chunk events with payloads
`c1..cN` delivered during one streaming send, the placeholder assistant
message's content after processing all N events equals the concatenation
`c1 ++ ... ++ cN` in delivery order, the accumulator holding exactly that
concatenation. -/
theorem C1_stream_chunk_concat (s : PageState) (content : String) (now : Nat)
    (cs : List String) :
    (runGuestEvents ("", startStreamingSend s content now) (cs.map GuestEvent.chunk)).1
      = String.join cs ∧
    (runGuestEvents ("", startStreamingSend s content now)
        (cs.map GuestEvent.chunk)).2.pendingAssistantIndex = some (s.messages.length + 1) ∧
    (runGuestEvents ("", startStreamingSend s content now)
        (cs.map GuestEvent.chunk)).2.messages.get? (s.messages.length + 1)
      = some ⟨"assistant", String.join cs, none, some (Nat.repr (s.cidCounter + 2)), true⟩ := by
  have hp : (startStreamingSend s content now).pendingAssistantIndex
      = some (s.messages.length + 1) := by
    simp [startStreamingSend]
  have hm : (startStreamingSend s content now).messages.get? (s.messages.length + 1)
      = some ⟨"assistant", "", none, some (Nat.repr (s.cidCounter + 2)), true⟩ := by
    show (s.messages ++ [_, _]).get? (s.messages.length + 1) = _
    rw [get?_append_add]
    rfl
  obtain ⟨h1, h2, h3, _, _, _⟩ :=
    runChunks_spec cs "" (startStreamingSend s content now) (s.messages.length + 1)
      ⟨"assistant", "", none, some (Nat.repr (s.cidCounter + 2)), true⟩ hp hm rfl
  refine ⟨by rw [h1, String.empty_append], h2, ?_⟩
  rw [h3, String.empty_append]

/-- Claim C2: when a control snapshot arrives while the optimistic
placeholder is still present, the replacement assignment produces
exactly `oldTranscript.take (n - 2) ++ authoritativeLastTwo`, the
snapshot's last two entries spliced after all but the last two local
entries. -/
theorem C2_snapshot_replaces_tail (s : PageState) (updated : List ServerMessage) (i : Nat)
    (m : ChatMessage) (hp : s.pendingAssistantIndex = some i)
    (hm : s.messages.get? i = some m) (hpl : m.placeholder = true)
    (hn : 2 ≤ s.messages.length) :
    reconcileCandidate s updated
      = s.messages.take (s.messages.length - 2)
        ++ (updated.drop (updated.length - 2)).map injectServer := by
  have hpres : pendingPlaceholderPresent s = true := by
    simp only [pendingPlaceholderPresent, hp, hm, hpl]
  unfold reconcileCandidate
  rw [if_pos hpres, jsSlice_zero_neg2, jsSliceFrom_neg2]

/-- Witness for C2 at a concrete two-entry transcript and snapshot. -/
theorem C2_snapshot_replaces_tail_witness :
    (PageState.mk [⟨"user", "hi", some 1, some "1", false⟩,
        ⟨"assistant", "He", none, some "2", true⟩] (some 1) false 2).pendingAssistantIndex
      = some 1 ∧
    (PageState.mk [⟨"user", "hi", some 1, some "1", false⟩,
        ⟨"assistant", "He", none, some "2", true⟩] (some 1) false 2).messages.get? 1
      = some ⟨"assistant", "He", none, some "2", true⟩ ∧
    (ChatMessage.mk "assistant" "He" none (some "2") true).placeholder = true ∧
    2 ≤ (PageState.mk [⟨"user", "hi", some 1, some "1", false⟩,
        ⟨"assistant", "He", none, some "2", true⟩] (some 1) false 2).messages.length ∧
    reconcileCandidate
        (PageState.mk [⟨"user", "hi", some 1, some "1", false⟩,
          ⟨"assistant", "He", none, some "2", true⟩] (some 1) false 2)
        [⟨"user", "hi", some 1⟩, ⟨"assistant", "Hello!", some 2⟩]
      = (PageState.mk [⟨"user", "hi", some 1, some "1", false⟩,
          ⟨"assistant", "He", none, some "2", true⟩] (some 1) false 2).messages.take
          ((PageState.mk [⟨"user", "hi", some 1, some "1", false⟩,
            ⟨"assistant", "He", none, some "2", true⟩] (some 1) false 2).messages.length - 2)
        ++ (([⟨"user", "hi", some 1⟩, ⟨"assistant", "Hello!", some 2⟩] : List ServerMessage).drop
            (([⟨"user", "hi", some 1⟩, ⟨"assistant", "Hello!", some 2⟩] : List ServerMessage).length
              - 2)).map injectServer :=
  ⟨rfl, rfl, rfl, by decide,
    C2_snapshot_replaces_tail _ _ 1 ⟨"assistant", "He", none, some "2", true⟩ rfl rfl rfl
      (by decide)⟩

/-- Claim C3: when the stream throws and the fallback succeeds, the final
transcript is exactly the fallback response's message list — replacing the
optimistic pair rather than appending after it — so a response of length
`pre-send + 2` yields a final length of `pre-send + 2` (not `+ 4`), with
no placeholder entry remaining. -/
theorem C3_fallback_replaces_pair (s : PageState) (content : String) (now : Nat)
    (evs : List GuestEvent) (resp : GuestChatResponse)
    (hc : content ≠ "") (hlen : resp.messages.length = s.messages.length + 2) :
    ∃ st : PageState,
      (handleGuestSent s true false content now (StreamOutcome.fail evs)
          (Except.ok resp)).1 = Except.ok st ∧
      st.messages = resp.messages.map injectServer ∧
      st.messages.length = s.messages.length + 2 ∧
      st.pendingAssistantIndex = none ∧
      ∀ m ∈ st.messages, m.placeholder = false := by
  refine ⟨fallbackApply (runGuestEvents ("", startStreamingSend s content now) evs).2 resp,
    ?_, rfl, ?_, rfl, ?_⟩
  · unfold handleGuestSent
    rw [if_neg hc]
    rfl
  · show (resp.messages.map injectServer).length = s.messages.length + 2
    rw [List.length_map, hlen]
  · intro m hm
    obtain ⟨x, _, rfl⟩ := List.mem_map.mp hm
    rfl

/-- Witness for C3: an empty pre-send transcript, a stream failing after
zero chunks, and a two-entry fallback response. -/
theorem C3_fallback_replaces_pair_witness :
    ("hi" : String) ≠ "" ∧
    (GuestChatResponse.mk "Hi there."
        [⟨"user", "hi", some 1⟩, ⟨"assistant", "Hi there.", some 2⟩]).messages.length
      = (PageState.mk [] none false 0).messages.length + 2 ∧
    ∃ st : PageState,
      (handleGuestSent (PageState.mk [] none false 0) true false "hi" 1
          (StreamOutcome.fail [])
          (Except.ok (GuestChatResponse.mk "Hi there."
            [⟨"user", "hi", some 1⟩, ⟨"assistant", "Hi there.", some 2⟩]))).1
        = Except.ok st ∧
      st.messages = (GuestChatResponse.mk "Hi there."
          [⟨"user", "hi", some 1⟩, ⟨"assistant", "Hi there.", some 2⟩]).messages.map injectServer ∧
      st.messages.length = (PageState.mk [] none false 0).messages.length + 2 ∧
      st.pendingAssistantIndex = none ∧
      ∀ m ∈ st.messages, m.placeholder = false :=
  ⟨by decide, by decide,
    C3_fallback_replaces_pair (PageState.mk [] none false 0) "hi" 1 []
      (GuestChatResponse.mk "Hi there."
        [⟨"user", "hi", some 1⟩, ⟨"assistant", "Hi there.", some 2⟩])
      (by decide) (by decide)⟩

/-- Claim C4 counterexample: a completed send (stream failure, fallback
success) whose fallback response ends in two role- and content-identical
entries leaves those duplicates as the final two transcript entries — no
deduplication runs on the fallback path. -/
theorem C4_counterexample :
    ((handleGuestSent (PageState.mk [] none false 0) true false "hi" 0
        (StreamOutcome.fail [])
        (Except.ok (GuestChatResponse.mk "ok"
          [⟨"user", "a", none⟩, ⟨"user", "a", none⟩]))).1).map
      (fun st => tailDuplicate st.messages) = Except.ok true := by
  rfl

/-- Claim C4 as amended: the tail deduplication runs only on the
reconciliation (`onMessages`) path — there, a settled transcript ending
in two entries with identical role and content loses exactly its very
last entry — while the successful-fallback path installs the response
transcript verbatim, with no deduplication at all. -/
theorem C4_dedup_amended (s : PageState) (updated : List ServerMessage)
    (resp : GuestChatResponse) (hig : s.ignoreFinalGuestSse = false)
    (hdup : tailDuplicate (reconcileCandidate s updated) = true) :
    (onMessagesCb s updated).messages = (reconcileCandidate s updated).dropLast ∧
    (fallbackApply s resp).messages = resp.messages.map injectServer := by
  refine ⟨?_, rfl⟩
  unfold onMessagesCb
  rw [if_neg (by simp [hig])]
  show dedupTail (reconcileCandidate s updated) = _
  unfold dedupTail
  rw [if_pos hdup, jsSlice_zero_neg1]

/-- Witness for the amended C4: a snapshot whose last two entries
duplicate each other, so the dedup drops the final entry. -/
theorem C4_dedup_amended_witness :
    (PageState.mk [⟨"user", "hi", some 1, some "1", false⟩,
        ⟨"assistant", "x", none, some "2", true⟩] (some 1) false 2).ignoreFinalGuestSse
      = false ∧
    tailDuplicate (reconcileCandidate
        (PageState.mk [⟨"user", "hi", some 1, some "1", false⟩,
          ⟨"assistant", "x", none, some "2", true⟩] (some 1) false 2)
        [⟨"assistant", "x", none⟩, ⟨"assistant", "x", none⟩]) = true ∧
    (onMessagesCb
        (PageState.mk [⟨"user", "hi", some 1, some "1", false⟩,
          ⟨"assistant", "x", none, some "2", true⟩] (some 1) false 2)
        [⟨"assistant", "x", none⟩, ⟨"assistant", "x", none⟩]).messages
      = (reconcileCandidate
          (PageState.mk [⟨"user", "hi", some 1, some "1", false⟩,
            ⟨"assistant", "x", none, some "2", true⟩] (some 1) false 2)
          [⟨"assistant", "x", none⟩, ⟨"assistant", "x", none⟩]).dropLast ∧
    (fallbackApply
        (PageState.mk [⟨"user", "hi", some 1, some "1", false⟩,
          ⟨"assistant", "x", none, some "2", true⟩] (some 1) false 2)
        (GuestChatResponse.mk "ok" [⟨"user", "hi", some 1⟩])).messages
      = (GuestChatResponse.mk "ok" [⟨"user", "hi", some 1⟩]).messages.map injectServer := by
  refine ⟨rfl, by decide, ?_⟩
  exact C4_dedup_amended _ _ (GuestChatResponse.mk "ok" [⟨"user", "hi", some 1⟩]) rfl (by decide)

/-- Claim C6 counterexample: the stream throws, then the fallback request
itself rejects; the handler state at the uncaught rejection still holds
the placeholder assistant entry (with `__placeholder = true`) and a set
`pendingAssistantIndex`, and no error is surfaced to the UI by the
handler — contradicting "the placeholder is removed and the send state
cleared". -/
theorem C6_counterexample :
    (handleGuestSent (PageState.mk [] none false 0) true false "hi" 7
        (StreamOutcome.fail []) (Except.error "network down")).1
      = Except.error (PageState.mk
          [⟨"user", "hi", some 7, some "1", false⟩,
           ⟨"assistant", "", none, some "2", true⟩] (some 1) false 2) := by
  rfl

/-- Claim C6 as amended: when the fallback request itself fails, the
rejection propagates uncaught out of the handler; the optimistic user
message is retained, but the placeholder assistant entry is not removed
and `pendingAssistantIndex` stays set — no cleanup and no user-visible
error happens in the handler. -/
theorem C6_fallback_failure_amended (s : PageState) (content : String) (now : Nat)
    (cs : List String) (err : String) (hc : content ≠ "") :
    ∃ st : PageState,
      (handleGuestSent s true false content now
          (StreamOutcome.fail (cs.map GuestEvent.chunk)) (Except.error err)).1
        = Except.error st ∧
      st.messages.get? s.messages.length
        = some ⟨"user", content, some now, some (Nat.repr (s.cidCounter + 1)), false⟩ ∧
      st.pendingAssistantIndex = some (s.messages.length + 1) ∧
      st.messages.get? (s.messages.length + 1)
        = some ⟨"assistant", String.join cs, none, some (Nat.repr (s.cidCounter + 2)), true⟩ := by
  have hp : (startStreamingSend s content now).pendingAssistantIndex
      = some (s.messages.length + 1) := by
    simp [startStreamingSend]
  have hm : (startStreamingSend s content now).messages.get? (s.messages.length + 1)
      = some ⟨"assistant", "", none, some (Nat.repr (s.cidCounter + 2)), true⟩ := by
    show (s.messages ++ [_, _]).get? (s.messages.length + 1) = _
    rw [get?_append_add]
    rfl
  have hu : (startStreamingSend s content now).messages.get? s.messages.length
      = some ⟨"user", content, some now, some (Nat.repr (s.cidCounter + 1)), false⟩ := by
    show (s.messages ++ [_, _]).get? (s.messages.length + 0) = _
    rw [get?_append_add]
    rfl
  obtain ⟨_, h2, h3, h4, _, _⟩ :=
    runChunks_spec cs "" (startStreamingSend s content now) (s.messages.length + 1)
      ⟨"assistant", "", none, some (Nat.repr (s.cidCounter + 2)), true⟩ hp hm rfl
  refine ⟨(runGuestEvents ("", startStreamingSend s content now)
      (cs.map GuestEvent.chunk)).2, ?_, ?_, h2, ?_⟩
  · unfold handleGuestSent
    rw [if_neg hc]
    rfl
  · rw [h4 s.messages.length (by omega), hu]
  · rw [h3, String.empty_append]

/-- Witness for the amended C6 at a concrete failing run. -/
theorem C6_fallback_failure_amended_witness :
    ("hi" : String) ≠ "" ∧
    ∃ st : PageState,
      (handleGuestSent (PageState.mk [] none false 0) true false "hi" 7
          (StreamOutcome.fail (["He"].map GuestEvent.chunk)) (Except.error "boom")).1
        = Except.error st ∧
      st.messages.get? (PageState.mk [] none false 0).messages.length
        = some ⟨"user", "hi", some 7,
            some (Nat.repr ((PageState.mk [] none false 0).cidCounter + 1)), false⟩ ∧
      st.pendingAssistantIndex = some ((PageState.mk [] none false 0).messages.length + 1) ∧
      st.messages.get? ((PageState.mk [] none false 0).messages.length + 1)
        = some ⟨"assistant", String.join ["He"], none,
            some (Nat.repr ((PageState.mk [] none false 0).cidCounter + 2)), true⟩ :=
  ⟨by decide,
    C6_fallback_failure_amended (PageState.mk [] none false 0) "hi" 7 ["He"] "boom" (by decide)⟩

lemma startsWithChars_self_append (p cs : List Char) :
    startsWithChars p (p ++ cs) = true := by
  induction p with
  | nil => rfl
  | cons c t ih => simp [startsWithChars, ih]

lemma data_marker_toList (d : String) :
    ("data: " ++ d).toList = ("data: ").toList ++ d.toList := by
  show ("data: " ++ d).data = ("data: ").data ++ d.data
  rw [String.data_append]

lemma strStartsWith_data_marker (d : String) :
    strStartsWith ("data: " ++ d) "data: " = true := by
  unfold strStartsWith
  rw [data_marker_toList]
  exact startsWithChars_self_append _ _

lemma strDrop_data_marker (d : String) : strDrop ("data: " ++ d) 6 = d := by
  unfold strDrop
  rw [data_marker_toList, show (6 : Nat) = ("data: ").toList.length from rfl,
    List.drop_left]
  exact String.ext rfl

lemma guestProcessLines_cons (d : String) (rest : List String) (hd : d ≠ "[DONE]") :
    guestProcessLines (("data: " ++ d) :: rest)
      = match guestClassifyData d with
        | some e => e :: guestProcessLines rest
        | none => guestProcessLines rest := by
  have step : guestProcessLines (("data: " ++ d) :: rest)
      = if strStartsWith ("data: " ++ d) "data: " then
          (if strDrop ("data: " ++ d) 6 = "[DONE]" then []
           else
             match guestClassifyData (strDrop ("data: " ++ d) 6) with
             | some e => e :: guestProcessLines rest
             | none => guestProcessLines rest)
        else guestProcessLines rest := rfl
  rw [step, strStartsWith_data_marker, strDrop_data_marker]
  simp [hd]

lemma streamProcessLines_cons (d : String) (rest : List String) (hd : d ≠ "[DONE]") :
    streamProcessLines (("data: " ++ d) :: rest) = d :: streamProcessLines rest := by
  have step : streamProcessLines (("data: " ++ d) :: rest)
      = if strStartsWith ("data: " ++ d) "data: " then
          (if strDrop ("data: " ++ d) 6 = "[DONE]" then []
           else strDrop ("data: " ++ d) 6 :: streamProcessLines rest)
        else streamProcessLines rest := rfl
  rw [step, strStartsWith_data_marker, strDrop_data_marker]
  simp [hd]

/-- Claim C5 counterexample: the complete line `data: 1` has a payload
that is not `[DONE]` and parses as JSON (the number 1) without the
full-transcript discriminator; `guestChatStream` emits no event at all
for it — the payload is silently dropped, not degraded to a text chunk. -/
theorem C5_counterexample :
    strDrop "data: 1" 6 = "1" ∧ ("1" : String) ≠ "[DONE]" ∧
    parseJson "1" = some (Json.num "1") ∧
    guestProcessLines ["data: 1"] = [] :=
  ⟨rfl, by decide, rfl, rfl⟩

/-- Claim C5 as amended: in `guestChatStream`, a payload that fails
`JSON.parse` — or parses to null, so the discriminator property access
throws and lands in the catch — is emitted verbatim as a text chunk; a
payload parsing to an object whose `type` field is the string
`messages` emits a control event carrying its `data` field; every other
successfully parsed payload is silently dropped.  In `streamMessage`,
every non-`[DONE]` payload is emitted as a text chunk and there are no
control events. -/
theorem C5_line_classification_amended (d : String) (rest : List String)
    (hd : d ≠ "[DONE]") :
    (guestProcessLines (("data: " ++ d) :: rest)
      = match parseJson d with
        | none => SseEvent.chunk d :: guestProcessLines rest
        | some Json.null => SseEvent.chunk d :: guestProcessLines rest
        | some (Json.obj fs) =>
          (match jsLookupField fs "type" with
           | some (Json.str t) =>
             if t = "messages"
             then SseEvent.control (jsLookupField fs "data") :: guestProcessLines rest
             else guestProcessLines rest
           | _ => guestProcessLines rest)
        | some _ => guestProcessLines rest) ∧
    streamProcessLines (("data: " ++ d) :: rest) = d :: streamProcessLines rest := by
  refine ⟨?_, streamProcessLines_cons d rest hd⟩
  rw [guestProcessLines_cons d rest hd]
  unfold guestClassifyData
  cases hpj : parseJson d with
  | none => rfl
  | some j =>
    cases j with
    | null => rfl
    | bool b => rfl
    | num x => rfl
    | str x => rfl
    | arr xs => rfl
    | obj fs =>
      simp only [jsGetProp]
      cases htv : jsLookupField fs "type" with
      | none => rfl
      | some v =>
        cases v with
        | str t =>
          by_cases ht : t = "messages"
          · simp [ht]
          · simp [ht]
        | null => rfl
        | bool b => rfl
        | num x => rfl
        | arr xs => rfl
        | obj gs => rfl

/-- Witness for the amended C5: the payload `Hello` fails `JSON.parse`
and is re-emitted as a text chunk by both loops. -/
theorem C5_line_classification_amended_witness :
    ("Hello" : String) ≠ "[DONE]" ∧
    ((guestProcessLines [("data: " ++ "Hello")]
      = match parseJson "Hello" with
        | none => SseEvent.chunk "Hello" :: guestProcessLines []
        | some Json.null => SseEvent.chunk "Hello" :: guestProcessLines []
        | some (Json.obj fs) =>
          (match jsLookupField fs "type" with
           | some (Json.str t) =>
             if t = "messages"
             then SseEvent.control (jsLookupField fs "data") :: guestProcessLines []
             else guestProcessLines []
           | _ => guestProcessLines [])
        | some _ => guestProcessLines []) ∧
    streamProcessLines [("data: " ++ "Hello")] = "Hello" :: streamProcessLines []) :=
  ⟨by decide, C5_line_classification_amended "Hello" [] (by decide)⟩

/-- Claim C7: a send attempt with empty or whitespace-only input, or made
while a send is already in flight, is rejected synchronously by both
input components: the component state is unchanged and no event or
request leaves the component, so the transcript is never touched. -/
theorem C7_send_guard (st : InputState) (tid : Option String) (streaming useRag : Bool)
    (h : strTrim st.content = "" ∨ st.sending = true) :
    guestInputHandleSend st = (st, []) ∧
    messageInputHandleSend st tid streaming useRag = (st, []) := by
  have hb : (decide (strTrim st.content = "") || st.sending) = true := by
    rcases h with h | h
    · simp [h]
    · simp [h]
  refine ⟨?_, ?_⟩ <;> simp [guestInputHandleSend, messageInputHandleSend, hb]

/-- Witness for C7: a whitespace-only draft with no send in flight. -/
theorem C7_send_guard_witness :
    (strTrim (InputState.mk " \t " false).content = ""
      ∨ (InputState.mk " \t " false).sending = true) ∧
    guestInputHandleSend (InputState.mk " \t " false) = (InputState.mk " \t " false, []) ∧
    messageInputHandleSend (InputState.mk " \t " false) none true false
      = (InputState.mk " \t " false, []) :=
  ⟨Or.inl (by decide), C7_send_guard (InputState.mk " \t " false) none true false
    (Or.inl (by decide))⟩

/-- Claim C8: with the retrieval-augmentation flag set, the reactive
statement forces the streaming flag off, and neither send handler ever
opens a streaming request, regardless of the streaming preference — both
take the synchronous `sendOnce` path. -/
theorem C8_rag_forces_nonstreaming (s : PageState) (streaming : Bool) (content : String)
    (now : Nat) (out : StreamOutcome) (fb : Except String GuestChatResponse)
    (st : InputState) (tid : Option String) :
    ragNormalize streaming true = false ∧
    ApiCall.streamReq ∉ (handleGuestSent s streaming true content now out fb).2 ∧
    ApiCall.streamReq ∉ (messageInputHandleSend st tid streaming true).2 := by
  refine ⟨rfl, ?_, ?_⟩
  · unfold handleGuestSent handleGuestSentNonStreaming
    by_cases hc : content = "" <;> cases fb <;> simp [hc]
  · unfold messageInputHandleSend
    by_cases hg : (decide (strTrim st.content = "") || st.sending) = true
    · simp [hg]
    · cases tid <;> simp [hg]

/-- Claim C9: every streaming request is sent with `cache: 'no-store'`;
the authenticated stream attaches `Authorization: Bearer <token>` exactly
when a (truthy) token is present, and the guest stream never sends an
authorization header. -/
theorem C9_stream_request_auth (tok : Option String) (t : String) (ht : t ≠ "") :
    (streamMessageRequest tok).cache = "no-store" ∧
    guestChatStreamRequest.cache = "no-store" ∧
    ("Authorization", "Bearer " ++ t) ∈ (streamMessageRequest (some t)).headers ∧
    (hasAuthHeader (streamMessageRequest tok) = true ↔ ∃ u, tok = some u ∧ u ≠ "") ∧
    hasAuthHeader guestChatStreamRequest = false := by
  refine ⟨?_, rfl, ?_, ?_, rfl⟩
  · cases tok with
    | none => rfl
    | some u => by_cases hu : u = "" <;> simp [streamMessageRequest, hu]
  · simp [streamMessageRequest, ht]
  · cases tok with
    | none => simp [streamMessageRequest, hasAuthHeader]
    | some u =>
      by_cases hu : u = ""
      · subst hu
        simp [streamMessageRequest, hasAuthHeader]
      · simp [streamMessageRequest, hasAuthHeader, hu]

/-- Witness for C9 with a concrete token. -/
theorem C9_stream_request_auth_witness :
    ("tok123" : String) ≠ "" ∧
    ((streamMessageRequest none).cache = "no-store" ∧
    guestChatStreamRequest.cache = "no-store" ∧
    ("Authorization", "Bearer " ++ "tok123") ∈ (streamMessageRequest (some "tok123")).headers ∧
    (hasAuthHeader (streamMessageRequest none) = true ↔ ∃ u, none = some u ∧ u ≠ "") ∧
    hasAuthHeader guestChatStreamRequest = false) :=
  ⟨by decide, C9_stream_request_auth none "tok123" (by decide)⟩

/-- Claim C10: `setGuestMode` sets `isAuthenticated` to `true`, `isGuest`
to `true`, the user store to the canned guest identity, and clears the
token store; from the initial stores, a guest session and a logged-in
session agree on `isAuthenticated` and differ on `isGuest`. -/
theorem C10_guest_mode_authenticated (s : Stores) (u : StoreUser) :
    (setGuestMode s).isAuthenticated = true ∧
    (setGuestMode s).isGuest = true ∧
    (setGuestMode s).user = some guestUser ∧
    (setGuestMode s).token = none ∧
    (setGuestMode initialStores).isAuthenticated
      = (loginSuccess u initialStores).isAuthenticated ∧
    (setGuestMode initialStores).isGuest ≠ (loginSuccess u initialStores).isGuest := by
  exact ⟨rfl, rfl, rfl, rfl, rfl, by simp [setGuestMode, loginSuccess, initialStores]⟩
